import Mathlib

/-!
Verification of the Centrifugo Node core (lib/node/node.go) against its
natural-language specification.  The Go code is shallowly embedded: Go
strings become `List Char`, Go `error` results become `Except Err Unit`,
engine / hub / codec side effects are made explicit as record fields or
oracle parameters, and pointer mutation of a publication is modelled by
returning the updated value.
-/

namespace Centrifugo

/-- Go strings, modelled as lists of characters. -/
abbrev Str := List Char

/-- Build a `Str` from a Lean string literal (used in concrete instances). -/
def str (s : String) : Str := s.data

/-- Error taxonomy of the node (proto.Err* values in the source). -/
inductive Err where
  | badRequest
  | namespaceNotFound
  | internalServerError
  | alreadyExists
  | engineFailure
  deriving DecidableEq, Repr

/-- Result of a Go function returning `error` (`.ok ()` is a nil error). -/
abbrev Res := Except Err Unit

instance : DecidableEq Res := fun a b => by
  cases a <;> cases b
  case ok.ok u v => cases u; cases v; exact isTrue rfl
  case error.error e f =>
    exact if h : e = f then isTrue (by rw [h]) else isFalse (by simp [h])
  all_goals exact isFalse (by simp)

/-! ## Go `strings` package primitives used by node.go -/

/-- Go `strings.HasPrefix(s, pre)`. -/
def goHasPrefix (s pre : Str) : Bool := pre.isPrefixOf s

/-- Go `strings.TrimPrefix(s, pre)`. -/
def goTrimPrefix (s pre : Str) : Str :=
  if pre.isPrefixOf s then s.drop pre.length else s

/-- Go `strings.Contains(s, sub)`: `sub` occurs somewhere in `s`
(the empty string occurs in every string). -/
def goContains (s sub : Str) : Bool :=
  sub.isPrefixOf s ||
    match s with
    | [] => false
    | _ :: rest => goContains rest sub

/-- Split `s` at the first occurrence of a non-empty separator `sep`:
`some (before, after)` when `sep` occurs, `none` otherwise. -/
def splitFirst (sep : Str) : Str → Option (Str × Str)
  | [] => none
  | c :: rest =>
    if sep.isPrefixOf (c :: rest) then some ([], (c :: rest).drop sep.length)
    else (splitFirst sep rest).map fun p => (c :: p.1, p.2)

/-- First element of Go `strings.SplitN(s, sep, 2)`.  For a non-empty
separator this is the part before the first occurrence (or all of `s`
when `sep` does not occur).  With an empty separator Go explodes `s`
into runes, so the first part is the first rune (Go panics indexing
`parts[0]` when `s` is also empty; that point is unreachable in the
theorems below and is mapped to `[]`). -/
def goSplitN2First (s sep : Str) : Str :=
  if sep = [] then s.take 1
  else
    match splitFirst sep s with
    | some p => p.1
    | none => s

/-! ## Configuration and channel options

`channel.Options` and `Config.channelOpts` live in files of this
repository that are not part of the analysed source (config.go,
lib/channel). -/

/-- Modelled from the spec: channel options control presence tracking,
history retention and join/leave broadcast (spec, Data model). -/
structure Options where
  presence : Bool := false
  historySize : Nat := 0
  historyLifetime : Nat := 0
  joinLeave : Bool := false
  deriving DecidableEq, Repr

/-- Node configuration: the string-parsing options read by node.go,
plus the namespace table used for channel-options resolution. -/
structure Config where
  name : Str := []
  privateChannelPrefix : Str := str "$"
  namespaceChannelBoundary : Str := str ":"
  userChannelBoundary : Str := str "#"
  userChannelSeparator : Str := str ","
  clientChannelBoundary : Str := str "&"
  topLevelOptions : Options := {}
  namespaces : List (Str × Options) := []

/-- Modelled from the spec: `Config.channelOpts` (config.go, not in the
analysed source).  The namespace name (empty for the top level) resolves
to options; a namespace absent from the configured table is not found. -/
def Config.channelOpts (c : Config) (nsName : Str) : Option Options :=
  if nsName = [] then some c.topLevelOptions
  else (c.namespaces.find? fun p => p.1 = nsName).map Prod.snd

/-- `Node.namespaceName` from node.go: strip the private-channel prefix,
then take the part before the first namespace-channel boundary (empty
when the boundary does not occur). -/
def namespaceName (cfg : Config) (ch : Str) : Str :=
  let cTrim := goTrimPrefix ch cfg.privateChannelPrefix
  if goContains cTrim cfg.namespaceChannelBoundary then
    goSplitN2First cTrim cfg.namespaceChannelBoundary
  else []

/-- `Node.ChannelOpts` from node.go: resolve options for the channel's
namespace under the current config. -/
def channelOptsOf (cfg : Config) (ch : Str) : Option Options :=
  cfg.channelOpts (namespaceName cfg ch)

end Centrifugo

namespace Centrifugo

/-! ## Lemmas about the string primitives (claim C9) -/

theorem goContains_of_middle (x sub y : Str) :
    goContains (x ++ sub ++ y) sub = true := by
  induction x with
  | nil =>
    have hpre : sub.isPrefixOf (sub ++ y) = true :=
      List.isPrefixOf_iff_prefix.mpr (List.prefix_append sub y)
    unfold goContains
    simp [hpre]
  | cons c x' ih =>
    unfold goContains
    simp only [List.cons_append, Bool.or_eq_true]
    exact Or.inr ih

theorem splitFirst_cons_pos (sep : Str) (c : Char) (r : Str)
    (h : sep.isPrefixOf (c :: r) = true) :
    splitFirst sep (c :: r) = some ([], (c :: r).drop sep.length) := by
  simp [splitFirst, h]

theorem splitFirst_cons_neg (sep : Str) (c : Char) (r : Str)
    (h : sep.isPrefixOf (c :: r) = false) :
    splitFirst sep (c :: r) = (splitFirst sep r).map fun p => (c :: p.1, p.2) := by
  simp [splitFirst, h]

theorem splitFirst_middle (sep ns rest : Str) (hne : sep ≠ [])
    (hno : ∀ i < ns.length, sep.isPrefixOf ((ns ++ sep ++ rest).drop i) = false) :
    splitFirst sep (ns ++ sep ++ rest) = some (ns, rest) := by
  induction ns with
  | nil =>
    obtain ⟨a, sep', rfl⟩ : ∃ a sep', sep = a :: sep' := by
      cases sep with
      | nil => exact absurd rfl hne
      | cons a s => exact ⟨a, s, rfl⟩
    have hpre : (a :: sep').isPrefixOf ((a :: sep') ++ rest) = true :=
      List.isPrefixOf_iff_prefix.mpr (List.prefix_append _ rest)
    simp only [List.nil_append] at *
    rw [List.cons_append, splitFirst_cons_pos _ _ _ (by rw [← List.cons_append]; exact hpre)]
    rw [← List.cons_append, List.drop_left]
  | cons c ns' ih =>
    have h0 : sep.isPrefixOf (c :: (ns' ++ sep ++ rest)) = false := by
      have := hno 0 (Nat.zero_lt_succ _)
      simpa using this
    have hno' : ∀ i < ns'.length, sep.isPrefixOf ((ns' ++ sep ++ rest).drop i) = false := by
      intro i hi
      have := hno (i + 1) (Nat.succ_lt_succ hi)
      simpa using this
    have : (c :: ns') ++ sep ++ rest = c :: (ns' ++ sep ++ rest) := by simp
    rw [this, splitFirst_cons_neg _ _ _ h0, ih hno']
    rfl

/-- **C9 (amended).** For every configuration with a non-empty
namespace-channel boundary and every namespace `ns`, the channel
`ns ++ boundary ++ "foo"` parses back to namespace `ns`, provided the
channel does not start with the private-channel prefix and the first
occurrence of the boundary in the channel is at position `ns.length`
(no occurrence starts earlier; this in particular excludes namespaces
that themselves contain the boundary). -/
theorem namespaceName_roundTrip (cfg : Config) (ns : Str)
    (hb : cfg.namespaceChannelBoundary ≠ [])
    (hfirst : ∀ i < ns.length,
      cfg.namespaceChannelBoundary.isPrefixOf
        ((ns ++ cfg.namespaceChannelBoundary ++ str "foo").drop i) = false)
    (hpriv : goHasPrefix (ns ++ cfg.namespaceChannelBoundary ++ str "foo")
      cfg.privateChannelPrefix = false) :
    namespaceName cfg (ns ++ cfg.namespaceChannelBoundary ++ str "foo") = ns := by
  unfold namespaceName
  have htrim : goTrimPrefix (ns ++ cfg.namespaceChannelBoundary ++ str "foo")
      cfg.privateChannelPrefix = ns ++ cfg.namespaceChannelBoundary ++ str "foo" := by
    unfold goTrimPrefix
    unfold goHasPrefix at hpriv
    rw [hpriv]
    simp
  rw [htrim]
  show (if goContains (ns ++ cfg.namespaceChannelBoundary ++ str "foo")
          cfg.namespaceChannelBoundary = true then
        goSplitN2First (ns ++ cfg.namespaceChannelBoundary ++ str "foo")
          cfg.namespaceChannelBoundary
      else []) = ns
  rw [goContains_of_middle ns cfg.namespaceChannelBoundary (str "foo")]
  simp only [if_true]
  unfold goSplitN2First
  rw [if_neg hb, splitFirst_middle cfg.namespaceChannelBoundary ns (str "foo") hb hfirst]

/-- Witness for C9 (amended): with the default config (boundary `":"`,
private prefix `"$"`) the channel `"ab:foo"` parses to namespace `"ab"`. -/
theorem namespaceName_roundTrip_witness :
    namespaceName {} (str "ab" ++ str ":" ++ str "foo") = str "ab" :=
  namespaceName_roundTrip {} (str "ab") (by decide) (by decide) (by decide)

/-- **C9 (counterexample to the claim as stated).**  With the default
config (boundary `":"`, private prefix `"$"`) and namespace `"a:b"`,
the channel `"a:b" ++ ":" ++ "foo"` does not start with the private
prefix, yet `namespaceName` returns `"a"`, not `"a:b"`: the claim fails
when the namespace itself contains the boundary. -/
theorem namespaceName_roundTrip_cex :
    goHasPrefix (str "a:b" ++ str ":" ++ str "foo")
      (Config.privateChannelPrefix {}) = false ∧
    namespaceName {} (str "a:b" ++ str ":" ++ str "foo") ≠ str "a:b" := by
  decide

end Centrifugo

namespace Centrifugo

/-! ## Publish (claims C3, C4)

`Node.Publish` from node.go: when `opts` is nil it resolves channel
options (failing with `NamespaceNotFound` and an error future,
`makeErrChan`, without touching the engine); it then increments the
publication-sent counter, assigns `pub.UID` when empty, and delegates to
`engine.Publish`.  The generated uid (`nuid.Next()`, an external
library; per the spec a random, collision-resistant identifier) is
passed in as the parameter `genUid`, and the engine future's resolved
value as `engRes`. -/

/-- A publication (proto.Publication): uid plus opaque payload. -/
structure Publication where
  uid : Str
  data : Str := []
  deriving DecidableEq, Repr

/-- Observable outcome of one `Publish` call: the value the returned
error future resolves to, the engine call (channel, publication and
options handed to `engine.Publish`, or `none` when the engine is not
invoked), the publication after the call (Go mutates `*pub` in place),
and whether the publication-sent counter was incremented. -/
structure PublishOutcome where
  result : Res
  enginePublished : Option (Str × Publication × Options)
  pubAfter : Publication
  counterIncr : Bool
  deriving DecidableEq, Repr

/-- The branch of `Node.Publish` reached once options are available. -/
def publishWithOpts (ch : Str) (pub : Publication) (opts : Options)
    (genUid : Str) (engRes : Res) : PublishOutcome :=
  let pub2 := if pub.uid = [] then { pub with uid := genUid } else pub
  { result := engRes
    enginePublished := some (ch, pub2, opts)
    pubAfter := pub2
    counterIncr := true }

/-- `Node.Publish` from node.go. -/
def Publish (cfg : Config) (ch : Str) (pub : Publication)
    (opts : Option Options) (genUid : Str) (engRes : Res) : PublishOutcome :=
  match opts with
  | none =>
    match channelOptsOf cfg ch with
    | none =>
      { result := .error .namespaceNotFound
        enginePublished := none
        pubAfter := pub
        counterIncr := false }
    | some chOpts => publishWithOpts ch pub chOpts genUid engRes
  | some o => publishWithOpts ch pub o genUid engRes

/-- **C3.** Whenever `Publish` does not fail namespace resolution (the
caller passed options, or the channel's options resolve), the
publication ends with a non-empty uid (given that the generated uid is
non-empty, as the spec guarantees for `nuid.Next`), a caller-supplied
non-empty uid is left unchanged, and exactly that publication is handed
to `engine.Publish`. -/
theorem publish_uid_assigned (cfg : Config) (ch : Str) (pub : Publication)
    (opts : Option Options) (genUid : Str) (engRes : Res)
    (hgen : genUid ≠ [])
    (hres : ¬(opts = none ∧ channelOptsOf cfg ch = none)) :
    (Publish cfg ch pub opts genUid engRes).pubAfter.uid ≠ [] ∧
    (pub.uid ≠ [] → (Publish cfg ch pub opts genUid engRes).pubAfter = pub) ∧
    ∃ o, (Publish cfg ch pub opts genUid engRes).enginePublished =
      some (ch, (Publish cfg ch pub opts genUid engRes).pubAfter, o) := by
  cases opts with
  | some o =>
    refine ⟨?_, ?_, o, rfl⟩
    · by_cases h : pub.uid = [] <;> simp [Publish, publishWithOpts, h, hgen]
    · intro h
      simp [Publish, publishWithOpts, h]
  | none =>
    cases hco : channelOptsOf cfg ch with
    | none => exact absurd ⟨rfl, hco⟩ hres
    | some o =>
      refine ⟨?_, ?_, o, by simp [Publish, hco, publishWithOpts]⟩
      · by_cases h : pub.uid = [] <;>
          simp [Publish, hco, publishWithOpts, h, hgen]
      · intro h
        simp [Publish, hco, publishWithOpts, h]

/-- Witness for C3 at a concrete input: empty caller uid, resolvable
top-level channel, generated uid `"g1"`. -/
theorem publish_uid_assigned_witness :
    (Publish {} (str "news") ⟨[], str "x"⟩ none (str "g1") (.ok ())).pubAfter.uid ≠ [] ∧
    ((⟨[], str "x"⟩ : Publication).uid ≠ [] →
      (Publish {} (str "news") ⟨[], str "x"⟩ none (str "g1") (.ok ())).pubAfter =
        ⟨[], str "x"⟩) ∧
    ∃ o, (Publish {} (str "news") ⟨[], str "x"⟩ none (str "g1") (.ok ())).enginePublished =
      some (str "news",
        (Publish {} (str "news") ⟨[], str "x"⟩ none (str "g1") (.ok ())).pubAfter, o) :=
  publish_uid_assigned {} (str "news") ⟨[], str "x"⟩ none (str "g1") (.ok ())
    (by decide) (by decide)

/-- **C4.** When the channel's namespace does not resolve and no options
are passed, `Publish` returns a future resolving to `NamespaceNotFound`,
does not touch the engine, leaves the publication unchanged and does not
increment the sent counter; and when options are passed, `Publish` never
consults the configuration (no namespace resolution is attempted). -/
theorem publish_namespace_not_found (cfg : Config) (ch : Str)
    (pub : Publication) (genUid : Str) (engRes : Res)
    (hco : channelOptsOf cfg ch = none) :
    (Publish cfg ch pub none genUid engRes =
      { result := .error .namespaceNotFound
        enginePublished := none
        pubAfter := pub
        counterIncr := false }) ∧
    ∀ (cfg' : Config) (o : Options),
      Publish cfg ch pub (some o) genUid engRes =
        Publish cfg' ch pub (some o) genUid engRes := by
  refine ⟨by simp [Publish, hco], fun cfg' o => rfl⟩

/-- Witness for C4: config whose namespace table is empty, channel
`"x:foo"` (spec scenario S4). -/
theorem publish_namespace_not_found_witness :
    (Publish {} (str "x:foo") ⟨str "u1", str "d"⟩ none (str "g1") (.ok ()) =
      { result := .error .namespaceNotFound
        enginePublished := none
        pubAfter := ⟨str "u1", str "d"⟩
        counterIncr := false }) ∧
    ∀ (cfg' : Config) (o : Options),
      Publish {} (str "x:foo") ⟨str "u1", str "d"⟩ (some o) (str "g1") (.ok ()) =
        Publish cfg' (str "x:foo") ⟨str "u1", str "d"⟩ (some o) (str "g1") (.ok ()) :=
  publish_namespace_not_found {} (str "x:foo") ⟨str "u1", str "d"⟩ (str "g1")
    (.ok ()) (by decide)

end Centrifugo

namespace Centrifugo

/-! ## Control plane (claims C1, C2, C6)

The control codec (lib/proto/control) is not part of the analysed
source; per the spec the wire format is a stable binary codec for
`Command{uid, method, params}` whose params is one of
`Node{...}`, `Unsubscribe{user, channel}`, `Disconnect{user}`.  It is
modelled as a tagged union with identity encode/decode; decoding a
payload of the wrong shape fails. -/

/-- Payload of a `"node"` control message (control.Node). -/
structure NodeInfoMsg where
  uid : Str
  name : Str
  version : Str := []
  startedAt : Nat := 0
  deriving DecidableEq, Repr

/-- Payload of an `"unsubscribe"` control message (control.Unsubscribe):
user plus channel, the channel's Go zero value being the empty string. -/
structure UnsubscribeMsg where
  user : Str
  channel : Str := []
  deriving DecidableEq, Repr

/-- Payload of a `"disconnect"` control message (control.Disconnect):
the source's struct carries only the user — no reconnect flag. -/
structure DisconnectMsg where
  user : Str
  deriving DecidableEq, Repr

/-- Modelled from the spec: encoded control params (opaque bytes on the
wire), as a tagged union so that each decoder accepts its own shape. -/
inductive ControlParams where
  | nodeP (n : NodeInfoMsg)
  | unsubP (m : UnsubscribeMsg)
  | discP (m : DisconnectMsg)
  | garbage
  deriving DecidableEq, Repr

/-- Modelled from the spec: control decoder for `"node"` params. -/
def decodeNode : ControlParams → Option NodeInfoMsg
  | .nodeP n => some n
  | _ => none

/-- Modelled from the spec: control decoder for `"unsubscribe"` params. -/
def decodeUnsubscribe : ControlParams → Option UnsubscribeMsg
  | .unsubP m => some m
  | _ => none

/-- Modelled from the spec: control decoder for `"disconnect"` params. -/
def decodeDisconnect : ControlParams → Option DisconnectMsg
  | .discP m => some m
  | _ => none

/-- A control command (control.Command). -/
structure ControlCommand where
  uid : Str
  method : Str
  params : ControlParams
  deriving DecidableEq, Repr

/-- The local call a received control command is dispatched to. -/
inductive Dispatch where
  | noDispatch
  | nodeCmd (n : NodeInfoMsg)
  | unsubUser (user channel : Str)
  | discUser (user : Str) (reconnect : Bool)
  deriving DecidableEq, Repr

/-- Observable outcome of `HandleControl`: returned error, how many
times the control-received counter was incremented, and the dispatched
local call (if any). -/
structure HandleOutcome where
  result : Res
  counterIncr : Nat
  dispatch : Dispatch
  deriving DecidableEq, Repr

/-- `Node.HandleControl` from node.go: always increments the
control-received counter; drops commands whose uid is the node's own;
otherwise dispatches on the method name (`"node"`, `"unsubscribe"`,
`"disconnect"`), with decode failures and unknown methods yielding
`BadRequest`.  The source's `"disconnect"` branch calls
`disconnectUser(cmd.User, false)` — reconnect hardcoded to `false`.
The result of the dispatched local call is supplied by the oracle
`dres`. -/
def HandleControl (selfUid : Str) (cmd : ControlCommand)
    (dres : Dispatch → Res) : HandleOutcome :=
  if cmd.uid = selfUid then
    { result := .ok (), counterIncr := 1, dispatch := .noDispatch }
  else if cmd.method = str "node" then
    match decodeNode cmd.params with
    | none => { result := .error .badRequest, counterIncr := 1, dispatch := .noDispatch }
    | some nmsg =>
      { result := dres (.nodeCmd nmsg), counterIncr := 1, dispatch := .nodeCmd nmsg }
  else if cmd.method = str "unsubscribe" then
    match decodeUnsubscribe cmd.params with
    | none => { result := .error .badRequest, counterIncr := 1, dispatch := .noDispatch }
    | some m =>
      { result := dres (.unsubUser m.user m.channel), counterIncr := 1
        dispatch := .unsubUser m.user m.channel }
  else if cmd.method = str "disconnect" then
    match decodeDisconnect cmd.params with
    | none => { result := .error .badRequest, counterIncr := 1, dispatch := .noDispatch }
    | some m =>
      { result := dres (.discUser m.user false), counterIncr := 1
        dispatch := .discUser m.user false }
  else
    { result := .error .badRequest, counterIncr := 1, dispatch := .noDispatch }

/-- A client connection (the Client contract of the spec's data model):
id, owning user, currently subscribed channels, and the result of
calling its `Unsubscribe(channel)` method (an oracle). -/
structure Client where
  id : Str
  userID : Str
  channels : List Str
  unsubRes : Str → Res

/-- The node state a dispatched control command can change: the
node registry and the hub's client connections. -/
structure ClusterState where
  registry : List NodeInfoMsg
  conns : List Client

/-- Modelled from the spec: registry `add` is an upsert keyed by uid. -/
def registryAdd (reg : List NodeInfoMsg) (nmsg : NodeInfoMsg) : List NodeInfoMsg :=
  nmsg :: reg.filter fun r => r.uid ≠ nmsg.uid

/-- Local effect of a dispatched control command on the node state:
`nodeCmd` upserts the registry; `unsubUser` removes the channel (all
channels when the channel is empty) from every connection of the user;
`discUser` drops the user's connections. -/
def applyDispatch (st : ClusterState) : Dispatch → ClusterState
  | .noDispatch => st
  | .nodeCmd nmsg => { st with registry := registryAdd st.registry nmsg }
  | .unsubUser u chl =>
    { st with conns := st.conns.map fun c =>
        if c.userID = u then
          { c with channels :=
              if chl = [] then [] else c.channels.filter fun x => x ≠ chl }
        else c }
  | .discUser u _ => { st with conns := st.conns.filter fun c => c.userID ≠ u }

/-- Engine-visible outcome of `publishControl`: the control commands
handed to `engine.PublishControl` and the resolved future value. -/
structure PubControlOutcome where
  published : List ControlCommand
  result : Res
  deriving DecidableEq, Repr

/-- `Node.pubUnsubscribe` from node.go: builds
`control.Unsubscribe{User: user}` — the `ch` argument is unused, the
Channel field stays at its zero value (a TODO in the source) — and
publishes one control command with method `"unsubscribe"`. -/
def pubUnsubscribe (selfUid user _ch : Str) (engRes : Res) : PubControlOutcome :=
  let params := ControlParams.unsubP { user := user }
  { published := [{ uid := selfUid, method := str "unsubscribe", params := params }]
    result := engRes }

/-- `Node.pubDisconnect` from node.go: builds
`control.Disconnect{User: user}` (the reconnect argument is not part of
the payload) and publishes one control command whose method the source
sets to `"unsubscribe"`, not `"disconnect"`. -/
def pubDisconnect (selfUid user : Str) (_reconnect : Bool) (engRes : Res) :
    PubControlOutcome :=
  let params := ControlParams.discP { user := user }
  { published := [{ uid := selfUid, method := str "unsubscribe", params := params }]
    result := engRes }

/-- **C1 (code bug, evaluated at the failing input).**
`Unsubscribe("u","room")`'s fan-out publishes one `"unsubscribe"`
control command, but its params carry only the user: the channel field
is empty, not `"room"`; the peer handling it dispatches
`unsubscribeUser("u", "")` — unsubscribe from all channels — and its
local effect removes the user's other subscriptions too (a client of
`u` subscribed to `"room"` and `"other"` is left with no channels,
where the claim expects `"other"` to survive). -/
theorem pubUnsubscribe_drops_channel :
    (pubUnsubscribe (str "n1") (str "u") (str "room") (.ok ())).published =
      [{ uid := str "n1", method := str "unsubscribe",
         params := .unsubP { user := str "u", channel := [] } }] ∧
    (HandleControl (str "n2")
        { uid := str "n1", method := str "unsubscribe",
          params := .unsubP { user := str "u", channel := [] } }
        (fun _ => .ok ())).dispatch = .unsubUser (str "u") [] ∧
    Dispatch.unsubUser (str "u") [] ≠ .unsubUser (str "u") (str "room") ∧
    ((applyDispatch
        { registry := []
          conns := [{ id := str "c1", userID := str "u"
                      channels := [str "room", str "other"]
                      unsubRes := fun _ => .ok () }] }
        (.unsubUser (str "u") [])).conns.map Client.channels) = [[]] := by
  refine ⟨rfl, by decide, by decide, rfl⟩

/-- **C2 (code bug, evaluated at the failing input).**
`Disconnect("u", true)`'s fan-out publishes a control command whose
method is `"unsubscribe"`, not `"disconnect"`, so a peer never reaches
its disconnect branch (here the mismatched payload fails to decode and
yields `BadRequest` with no dispatch); and even a correctly formed
`"disconnect"` command is dispatched as `disconnectUser(user, false)` —
the caller's reconnect flag `true` cannot be preserved because the
payload does not carry it and the receiver hardcodes `false`. -/
theorem pubDisconnect_wrong_method :
    (pubDisconnect (str "n1") (str "u") true (.ok ())).published =
      [{ uid := str "n1", method := str "unsubscribe",
         params := .discP { user := str "u" } }] ∧
    str "unsubscribe" ≠ str "disconnect" ∧
    (HandleControl (str "n2")
        { uid := str "n1", method := str "unsubscribe",
          params := .discP { user := str "u" } }
        (fun _ => .ok ())) =
      { result := .error .badRequest, counterIncr := 1, dispatch := .noDispatch } ∧
    (HandleControl (str "n2")
        { uid := str "n1", method := str "disconnect",
          params := .discP { user := str "u" } }
        (fun _ => .ok ())).dispatch = .discUser (str "u") false := by
  refine ⟨rfl, by decide, by decide, by decide⟩

/-- **C6.** A control command whose uid equals the receiving node's own
id is dropped: `HandleControl` returns success, increments the
control-received counter once, dispatches nothing (no decode of params
happens on this path), and the node registry and client connections are
unchanged. -/
theorem handleControl_self_loop (selfUid : Str) (cmd : ControlCommand)
    (dres : Dispatch → Res) (st : ClusterState) (h : cmd.uid = selfUid) :
    HandleControl selfUid cmd dres =
      { result := .ok (), counterIncr := 1, dispatch := .noDispatch } ∧
    applyDispatch st (HandleControl selfUid cmd dres).dispatch = st := by
  constructor
  · simp [HandleControl, h]
  · simp [HandleControl, h, applyDispatch]

/-- Witness for C6 at a concrete command echoed back to its sender. -/
theorem handleControl_self_loop_witness :
    HandleControl (str "n1")
        { uid := str "n1", method := str "node", params := .garbage }
        (fun _ => .ok ()) =
      { result := .ok (), counterIncr := 1, dispatch := .noDispatch } ∧
    applyDispatch { registry := [], conns := [] }
        (HandleControl (str "n1")
          { uid := str "n1", method := str "node", params := .garbage }
          (fun _ => .ok ())).dispatch =
      { registry := [], conns := [] } :=
  handleControl_self_loop (str "n1")
    { uid := str "n1", method := str "node", params := .garbage }
    (fun _ => .ok ()) { registry := [], conns := [] } rfl

end Centrifugo

namespace Centrifugo

/-! ## Local user unsubscription and `Node.Unsubscribe` (claims C5, C10) -/

/-- Inner loop of `unsubscribeUser` from node.go: call
`c.Unsubscribe(channel)` for each channel in turn, returning the first
error immediately.  The result records the `(client id, channel)` pairs
actually called, in order, and the loop's outcome. -/
def clientUnsubCalls (c : Client) : List Str → (List (Str × Str)) × Res
  | [] => ([], .ok ())
  | chl :: rest =>
    match c.unsubRes chl with
    | .error e => ([(c.id, chl)], .error e)
    | .ok () =>
      let r := clientUnsubCalls c rest
      ((c.id, chl) :: r.1, r.2)

/-- `Node.unsubscribeUser` from node.go: iterate the user's connections
(`hub.UserConnections(user)`, supplied here as the list `conns`; the
hub lives outside the analysed source).  For each connection the
channel list is `[ch]`, or all of the connection's channels when `ch`
is empty; the first `c.Unsubscribe` error is returned immediately. -/
def unsubscribeUser (conns : List Client) (ch : Str) : (List (Str × Str)) × Res :=
  match conns with
  | [] => ([], .ok ())
  | c :: rest =>
    match clientUnsubCalls c (if ch = [] then c.channels else [ch]) with
    | (calls, .error e) => (calls, .error e)
    | (calls, .ok ()) =>
      let r := unsubscribeUser rest ch
      (calls ++ r.1, r.2)

/-- The full sequence of `(connection, channel)` unsubscribe calls that
`unsubscribeUser` would make if no call failed. -/
def plannedCalls (conns : List Client) (ch : Str) : List (Client × Str) :=
  match conns with
  | [] => []
  | c :: rest =>
    ((if ch = [] then c.channels else [ch]).map fun chl => (c, chl)) ++
      plannedCalls rest ch

/-- Run a sequence of unsubscribe calls, aborting at the first error. -/
def runCalls : List (Client × Str) → (List (Str × Str)) × Res
  | [] => ([], .ok ())
  | (c, chl) :: rest =>
    match c.unsubRes chl with
    | .error e => ([(c.id, chl)], .error e)
    | .ok () =>
      let r := runCalls rest
      ((c.id, chl) :: r.1, r.2)

theorem runCalls_append (xs ys : List (Client × Str)) :
    runCalls (xs ++ ys) =
      match runCalls xs with
      | (calls, .ok ()) => (calls ++ (runCalls ys).1, (runCalls ys).2)
      | (calls, .error e) => (calls, .error e) := by
  induction xs with
  | nil => simp [runCalls]
  | cons p xs ih =>
    obtain ⟨c, chl⟩ := p
    cases h : c.unsubRes chl with
    | error e => simp [runCalls, h]
    | ok u =>
      cases u
      cases hr : runCalls xs with
      | mk calls r =>
        cases r with
        | error e =>
          have hx : runCalls (xs ++ ys) = (calls, .error e) := by rw [ih, hr]
          simp [runCalls, h, hx, hr]
        | ok u =>
          cases u
          have hx : runCalls (xs ++ ys) = (calls ++ (runCalls ys).1, (runCalls ys).2) := by
            rw [ih, hr]
          simp [runCalls, h, hx, hr]

theorem clientUnsubCalls_eq_runCalls (c : Client) (chans : List Str) :
    clientUnsubCalls c chans = runCalls (chans.map fun chl => (c, chl)) := by
  induction chans with
  | nil => rfl
  | cons chl rest ih =>
    cases h : c.unsubRes chl with
    | error e => simp [clientUnsubCalls, runCalls, h]
    | ok u => cases u; simp [clientUnsubCalls, runCalls, h, ih]

theorem unsubscribeUser_eq_runCalls (conns : List Client) (ch : Str) :
    unsubscribeUser conns ch = runCalls (plannedCalls conns ch) := by
  induction conns with
  | nil => rfl
  | cons c rest ih =>
    simp only [unsubscribeUser, plannedCalls, clientUnsubCalls_eq_runCalls,
      runCalls_append]
    cases hr : runCalls ((if ch = [] then c.channels else [ch]).map fun chl => (c, chl)) with
    | mk calls r =>
      cases r with
      | error e => simp
      | ok u => cases u; simp [ih]

theorem runCalls_first_error (pre : List (Client × Str)) (c : Client)
    (chl : Str) (e : Err) (post : List (Client × Str))
    (hpre : ∀ p ∈ pre, p.1.unsubRes p.2 = .ok ())
    (herr : c.unsubRes chl = .error e) :
    runCalls (pre ++ (c, chl) :: post) =
      (pre.map (fun p => (p.1.id, p.2)) ++ [(c.id, chl)], .error e) := by
  induction pre with
  | nil => simp [runCalls, herr]
  | cons p pre' ih =>
    obtain ⟨c', chl'⟩ := p
    have hok : c'.unsubRes chl' = .ok () := hpre (c', chl') (List.mem_cons_self _ _)
    have hrest : ∀ q ∈ pre', q.1.unsubRes q.2 = .ok () := by
      intro q hq
      exact hpre q (List.mem_cons_of_mem _ hq)
    simp [runCalls, hok, ih hrest]

/-- **C10.** Local user unsubscription aborts on the first failure: if
the planned sequence of `(connection, channel)` unsubscribe calls has
an all-successful prefix followed by a failing call, `unsubscribeUser`
returns that call's error immediately, having made exactly the calls up
to and including the failing one — none of the remaining channels of
that connection and none of the later connections are unsubscribed. -/
theorem unsubscribeUser_aborts (conns : List Client) (ch : Str)
    (pre : List (Client × Str)) (c : Client) (chl : Str) (e : Err)
    (post : List (Client × Str))
    (hplan : plannedCalls conns ch = pre ++ (c, chl) :: post)
    (hpre : ∀ p ∈ pre, p.1.unsubRes p.2 = .ok ())
    (herr : c.unsubRes chl = .error e) :
    unsubscribeUser conns ch =
      (pre.map (fun p => (p.1.id, p.2)) ++ [(c.id, chl)], .error e) := by
  rw [unsubscribeUser_eq_runCalls, hplan, runCalls_first_error pre c chl e post hpre herr]

/-- Witness for C10: user `u` has a connection `c1` on channels
`["a","b"]` (failing to unsubscribe from `"b"`) and a connection `c2`
on `["r"]`; unsubscribing from all channels stops after `("c1","b")`
and never touches `c2`. -/
theorem unsubscribeUser_aborts_witness :
    unsubscribeUser
      [{ id := str "c1", userID := str "u", channels := [str "a", str "b"]
         unsubRes := fun s => if s = str "a" then .ok () else .error .engineFailure },
       { id := str "c2", userID := str "u", channels := [str "r"]
         unsubRes := fun _ => .ok () }] [] =
      ([(str "c1", str "a"), (str "c1", str "b")], .error .engineFailure) :=
  unsubscribeUser_aborts _ []
    [({ id := str "c1", userID := str "u", channels := [str "a", str "b"]
        unsubRes := fun s => if s = str "a" then .ok () else .error .engineFailure },
      str "a")]
    { id := str "c1", userID := str "u", channels := [str "a", str "b"]
      unsubRes := fun s => if s = str "a" then .ok () else .error .engineFailure }
    (str "b") .engineFailure
    [({ id := str "c2", userID := str "u", channels := [str "r"]
        unsubRes := fun _ => .ok () }, str "r")]
    rfl (by intro p hp; simp at hp; subst hp; decide) (by decide)

end Centrifugo

namespace Centrifugo

/-- Observable outcome of `Node.Unsubscribe`: the returned error, the
local unsubscribe calls made, and whether the cross-cluster control
command was published. -/
structure UnsubOutcome where
  result : Res
  localCalls : List (Str × Str)
  controlPublished : Bool
  deriving DecidableEq, Repr

/-- `Node.Unsubscribe` from node.go: empty user is `BadRequest`; a
non-empty channel whose options do not resolve is `NamespaceNotFound`;
otherwise unsubscribe locally first, then publish the cross-cluster
control command, mapping a failure of either step to
`InternalServerError`.  The user's connections come from the hub
(parameter `conns`) and the control-publish future's value is the
parameter `pubRes`. -/
def NodeUnsubscribe (cfg : Config) (user ch : Str) (conns : List Client)
    (pubRes : Res) : UnsubOutcome :=
  if user = [] then
    { result := .error .badRequest, localCalls := [], controlPublished := false }
  else if ch ≠ [] ∧ channelOptsOf cfg ch = none then
    { result := .error .namespaceNotFound, localCalls := [], controlPublished := false }
  else
    match unsubscribeUser conns ch with
    | (calls, .error _) =>
      { result := .error .internalServerError, localCalls := calls
        controlPublished := false }
    | (calls, .ok ()) =>
      match pubRes with
      | .error _ =>
        { result := .error .internalServerError, localCalls := calls
          controlPublished := true }
      | .ok () =>
        { result := .ok (), localCalls := calls, controlPublished := true }

/-- **C5.** `Unsubscribe(user, ch)` returns `BadRequest` on an empty
user with no other effect; returns `NamespaceNotFound` on a non-empty
channel with unresolvable options, with no local unsubscribe and no
control publish; otherwise it unsubscribes locally first and then
publishes the control command — a local failure yields
`InternalServerError` with no control publish (the publish step is not
reached), a publish failure yields `InternalServerError` with the local
unsubscription left in place. -/
theorem nodeUnsubscribe_spec (cfg : Config) (user ch : Str)
    (conns : List Client) (pubRes : Res) :
    (user = [] → NodeUnsubscribe cfg user ch conns pubRes =
      { result := .error .badRequest, localCalls := [], controlPublished := false }) ∧
    (user ≠ [] → ch ≠ [] → channelOptsOf cfg ch = none →
      NodeUnsubscribe cfg user ch conns pubRes =
        { result := .error .namespaceNotFound, localCalls := []
          controlPublished := false }) ∧
    (user ≠ [] → ¬(ch ≠ [] ∧ channelOptsOf cfg ch = none) →
      ((∀ e, (unsubscribeUser conns ch).2 = .error e →
        NodeUnsubscribe cfg user ch conns pubRes =
          { result := .error .internalServerError
            localCalls := (unsubscribeUser conns ch).1
            controlPublished := false }) ∧
      ((unsubscribeUser conns ch).2 = .ok () →
        (∀ e, pubRes = .error e →
          NodeUnsubscribe cfg user ch conns pubRes =
            { result := .error .internalServerError
              localCalls := (unsubscribeUser conns ch).1
              controlPublished := true }) ∧
        (pubRes = .ok () →
          NodeUnsubscribe cfg user ch conns pubRes =
            { result := .ok (), localCalls := (unsubscribeUser conns ch).1
              controlPublished := true })))) := by
  refine ⟨fun hu => by simp [NodeUnsubscribe, hu], fun hu hch hns => ?_, fun hu hcond => ?_⟩
  · simp [NodeUnsubscribe, hu, hch, hns]
  · cases hcall : unsubscribeUser conns ch with
    | mk calls r =>
      refine ⟨fun e he => ?_, fun hok => ?_⟩
      · have he' : r = .error e := he
        subst he'
        simp [NodeUnsubscribe, hu, hcond, hcall]
      · have hok' : r = .ok () := hok
        subst hok'
        refine ⟨fun e he => ?_, fun hpok => ?_⟩
        · subst he
          simp [NodeUnsubscribe, hu, hcond, hcall]
        · subst hpok
          simp [NodeUnsubscribe, hu, hcond, hcall]

/-- Witness for C5: two concrete instances — an empty user yields
`BadRequest`, and a successful run on channel `"room"` makes the local
call and publishes the control command. -/
theorem nodeUnsubscribe_spec_witness :
    NodeUnsubscribe {} [] (str "room") [] (.ok ()) =
      { result := .error .badRequest, localCalls := [], controlPublished := false } ∧
    NodeUnsubscribe {} (str "u") (str "room")
        [{ id := str "c1", userID := str "u", channels := [str "room"]
           unsubRes := fun _ => .ok () }] (.ok ()) =
      { result := .ok (), localCalls := [(str "c1", str "room")]
        controlPublished := true } :=
  ⟨(nodeUnsubscribe_spec {} [] (str "room") [] (.ok ())).1 rfl,
   ((((nodeUnsubscribe_spec {} (str "u") (str "room")
      [{ id := str "c1", userID := str "u", channels := [str "room"]
         unsubRes := fun _ => .ok () }] (.ok ())).2.2
      (by decide) (by decide)).2 rfl).2 rfl)⟩

end Centrifugo

namespace Centrifugo

/-! ## Shutdown (claim C7) -/

/-- The node state read and written by `Shutdown`: the `shutdown` flag,
how many times the shutdown signal channel has been closed, and how
many times `hub.Shutdown` has been called. -/
structure ShutState where
  shutdown : Bool
  closeCount : Nat
  hubShutdownCount : Nat
  deriving DecidableEq, Repr

/-- State of a freshly constructed node (`New`): not shut down, signal
channel open, hub running. -/
def initShutState : ShutState :=
  { shutdown := false, closeCount := 0, hubShutdownCount := 0 }

/-- `Node.Shutdown` from node.go: when the flag is already set, return
nil at once; otherwise set the flag, close the shutdown channel, and
call `hub.Shutdown()`, returning its result (`hubRes`). -/
def Shutdown (hubRes : Res) (s : ShutState) : ShutState × Res :=
  if s.shutdown then (s, .ok ())
  else
    ({ shutdown := true, closeCount := s.closeCount + 1
       hubShutdownCount := s.hubShutdownCount + 1 }, hubRes)

/-- Run `Shutdown` `n` times from state `s`, collecting each call's
returned value. -/
def shutdownRuns (hubRes : Res) : Nat → ShutState → ShutState × List Res
  | 0, s => (s, [])
  | n + 1, s =>
    let p := Shutdown hubRes s
    let q := shutdownRuns hubRes n p.1
    (q.1, p.2 :: q.2)

theorem shutdownRuns_of_shutdown (hubRes : Res) (n : Nat) (s : ShutState)
    (h : s.shutdown = true) :
    shutdownRuns hubRes n s = (s, List.replicate n (.ok ())) := by
  induction n with
  | zero => rfl
  | succ n ih =>
    rw [List.replicate_succ]
    simp [shutdownRuns, Shutdown, h, ih]

/-- **C7.** For every `N ≥ 1`, `N` invocations of `Shutdown` starting
from a fresh node close the shutdown signal exactly once and shut the
hub down exactly once; the first invocation returns the hub's result
and every later invocation is a no-op returning success; the final
state equals that after a single invocation. -/
theorem shutdown_idempotent (hubRes : Res) (N : Nat) (h : 1 ≤ N) :
    (shutdownRuns hubRes N initShutState).1 =
      { shutdown := true, closeCount := 1, hubShutdownCount := 1 } ∧
    (shutdownRuns hubRes N initShutState).2 =
      hubRes :: List.replicate (N - 1) (.ok ()) ∧
    (shutdownRuns hubRes N initShutState).1 =
      (shutdownRuns hubRes 1 initShutState).1 := by
  cases N with
  | zero => exact absurd h (by decide)
  | succ n =>
    have h1 : Shutdown hubRes initShutState =
        ({ shutdown := true, closeCount := 1, hubShutdownCount := 1 }, hubRes) := rfl
    have h2 : shutdownRuns hubRes (n + 1) initShutState =
        ({ shutdown := true, closeCount := 1, hubShutdownCount := 1 },
          hubRes :: List.replicate n (.ok ())) := by
      simp [shutdownRuns, h1,
        shutdownRuns_of_shutdown hubRes n
          { shutdown := true, closeCount := 1, hubShutdownCount := 1 } rfl]
    refine ⟨by rw [h2], by rw [h2]; simp, by rw [h2]; rfl⟩

/-- Witness for C7 at `N = 3` with a successful hub shutdown. -/
theorem shutdown_idempotent_witness :
    (shutdownRuns (.ok ()) 3 initShutState).1 =
      { shutdown := true, closeCount := 1, hubShutdownCount := 1 } ∧
    (shutdownRuns (.ok ()) 3 initShutState).2 =
      .ok () :: List.replicate 2 (.ok ()) ∧
    (shutdownRuns (.ok ()) 3 initShutState).1 =
      (shutdownRuns (.ok ()) 1 initShutState).1 :=
  shutdown_idempotent (.ok ()) 3 (by decide)

end Centrifugo

namespace Centrifugo

/-! ## Subscription bookkeeping (claim C8)

`AddSubscription`/`RemoveSubscription` from node.go call the hub and
then invoke `engine.Subscribe(ch)` exactly when the hub reported the
first subscriber and no error, and `engine.Unsubscribe(ch)` exactly
when the hub reported the channel became empty and no error.  The hub
itself is outside the analysed source; per the spec, `add_sub` reports
`first_subscriber` iff the channel set transitioned from empty to
non-empty and `remove_sub` reports `channel_empty` iff it transitioned
to empty.  The hub's state for one channel is its local subscriber
count; an erroring hub call registers nothing. -/

/-- Modelled from the spec: `hub.AddSub` on a channel with `cnt` local
subscribers — new count plus the `first_subscriber` flag. -/
def hubAddSub (cnt : Nat) : Nat × Bool := (cnt + 1, decide (cnt = 0))

/-- Modelled from the spec: `hub.RemoveSub` — new count plus the
`channel_empty` flag (removing from an empty channel reports no
transition). -/
def hubRemoveSub (cnt : Nat) : Nat × Bool :=
  if cnt = 0 then (0, false) else (cnt - 1, decide (cnt = 1))

/-- One `AddSubscription`/`RemoveSubscription` call; the Boolean on the
operation says whether the hub call fails. -/
inductive SubOp where
  | add (hubErr : Bool)
  | remove (hubErr : Bool)
  deriving DecidableEq, Repr

/-- Record of one subscription operation: local subscriber count before
and after, the operation, and which engine calls were made. -/
structure StepRec where
  before : Nat
  after : Nat
  op : SubOp
  engineSub : Bool
  engineUnsub : Bool
  deriving DecidableEq, Repr

/-- `Node.AddSubscription` / `Node.RemoveSubscription` from node.go,
acting on the hub state for one channel: on a hub error nothing happens
and no engine call is made; otherwise `engine.Subscribe` is called iff
the hub reported the first subscriber, and `engine.Unsubscribe` iff it
reported the channel became empty. -/
def subStep (cnt : Nat) : SubOp → StepRec
  | .add e =>
    if e then ⟨cnt, cnt, .add e, false, false⟩
    else ⟨cnt, (hubAddSub cnt).1, .add e, (hubAddSub cnt).2, false⟩
  | .remove e =>
    if e then ⟨cnt, cnt, .remove e, false, false⟩
    else ⟨cnt, (hubRemoveSub cnt).1, .remove e, false, (hubRemoveSub cnt).2⟩

/-- Run a sequence of subscription operations on one channel, starting
from `cnt` local subscribers, collecting one record per operation. -/
def runSubOps (cnt : Nat) : List SubOp → List StepRec
  | [] => []
  | op :: rest =>
    let s := subStep cnt op
    s :: runSubOps s.after rest

/-- Whether the hub call of this operation fails. -/
def SubOp.hubFailed : SubOp → Bool
  | .add e => e
  | .remove e => e

theorem subStep_characterization (cnt : Nat) (op : SubOp) :
    ((subStep cnt op).engineSub =
      (decide ((subStep cnt op).before = 0) && decide (0 < (subStep cnt op).after))) ∧
    ((subStep cnt op).engineUnsub =
      (decide (0 < (subStep cnt op).before) && decide ((subStep cnt op).after = 0))) ∧
    (op.hubFailed = true →
      (subStep cnt op).engineSub = false ∧ (subStep cnt op).engineUnsub = false ∧
      (subStep cnt op).after = (subStep cnt op).before) := by
  cases op with
  | add e =>
    cases e with
    | true =>
      refine ⟨by simp [subStep], by simp [subStep]; omega, by simp [subStep]⟩
    | false =>
      refine ⟨?_, ?_, by simp [SubOp.hubFailed]⟩
      · simp [subStep, hubAddSub]
      · simp [subStep, hubAddSub]
  | remove e =>
    cases e with
    | true =>
      refine ⟨by simp [subStep], by simp [subStep]; omega, by simp [subStep]⟩
    | false =>
      refine ⟨?_, ?_, by simp [SubOp.hubFailed]⟩
      · by_cases h : cnt = 0 <;> simp [subStep, hubRemoveSub, h]
      · by_cases h : cnt = 0
        · simp [subStep, hubRemoveSub, h]
        · have hstep : subStep cnt (.remove false) =
              ⟨cnt, cnt - 1, .remove false, false, decide (cnt = 1)⟩ := by
            simp [subStep, hubRemoveSub, h]
          rw [hstep]
          show decide (cnt = 1) = (decide (0 < cnt) && decide (cnt - 1 = 0))
          rw [Bool.eq_iff_iff]
          simp only [Bool.and_eq_true, decide_eq_true_eq]
          omega

theorem runSubOps_mem (cnt : Nat) (ops : List SubOp) :
    ∀ s ∈ runSubOps cnt ops, ∃ c op, s = subStep c op := by
  induction ops generalizing cnt with
  | nil => intro s hs; simp [runSubOps] at hs
  | cons op rest ih =>
    intro s hs
    simp only [runSubOps, List.mem_cons] at hs
    cases hs with
    | inl h => exact ⟨cnt, op, h⟩
    | inr h => exact ih _ s h

theorem runSubOps_filter_sub (cnt : Nat) (ops : List SubOp) :
    (runSubOps cnt ops).filter (fun s => s.engineSub) =
      (runSubOps cnt ops).filter
        (fun s => decide (s.before = 0) && decide (0 < s.after)) := by
  apply List.filter_congr
  intro s hs
  obtain ⟨c, op, rfl⟩ := runSubOps_mem cnt ops s hs
  exact (subStep_characterization c op).1

theorem runSubOps_filter_unsub (cnt : Nat) (ops : List SubOp) :
    (runSubOps cnt ops).filter (fun s => s.engineUnsub) =
      (runSubOps cnt ops).filter
        (fun s => decide (0 < s.before) && decide (s.after = 0)) := by
  apply List.filter_congr
  intro s hs
  obtain ⟨c, op, rfl⟩ := runSubOps_mem cnt ops s hs
  exact (subStep_characterization c op).2.1

/-- **C8.** Over any sequence of `AddSubscription`/`RemoveSubscription`
operations on a channel: the operations that call `engine.Subscribe`
are exactly those whose local subscriber count transitions from 0 to
≥ 1 (so their number is equal), the operations that call
`engine.Unsubscribe` are exactly those transitioning from ≥ 1 to 0, and
an operation whose hub call fails makes neither engine call and leaves
the count unchanged. -/
theorem subscription_engine_parity (cnt : Nat) (ops : List SubOp) :
    (((runSubOps cnt ops).filter (fun s => s.engineSub)).length =
      ((runSubOps cnt ops).filter
        (fun s => decide (s.before = 0) && decide (0 < s.after))).length) ∧
    (((runSubOps cnt ops).filter (fun s => s.engineUnsub)).length =
      ((runSubOps cnt ops).filter
        (fun s => decide (0 < s.before) && decide (s.after = 0))).length) ∧
    (∀ s ∈ runSubOps cnt ops, (s.op = .add true ∨ s.op = .remove true) →
      s.engineSub = false ∧ s.engineUnsub = false ∧ s.after = s.before) := by
  refine ⟨by rw [runSubOps_filter_sub], by rw [runSubOps_filter_unsub], ?_⟩
  intro s hs herr
  obtain ⟨c, op, rfl⟩ := runSubOps_mem cnt ops s hs
  have hop : (subStep c op).op = op := by
    cases op with
    | add e => cases e <;> simp [subStep]
    | remove e => cases e <;> simp [subStep]
  have he : op.hubFailed = true := by
    cases herr with
    | inl h =>
      rw [hop] at h
      rw [h]
      rfl
    | inr h =>
      rw [hop] at h
      rw [h]
      rfl
  exact (subStep_characterization c op).2.2 he

/-- Witness for C8 at the spec's scenario S2: add two subscribers, then
remove both; the engine is subscribed once (on the first add) and
unsubscribed once (on the last remove). -/
theorem subscription_engine_parity_witness :
    (((runSubOps 0 [.add false, .add false, .remove false, .remove false]).filter
        (fun s => s.engineSub)).length =
      ((runSubOps 0 [.add false, .add false, .remove false, .remove false]).filter
        (fun s => decide (s.before = 0) && decide (0 < s.after))).length) ∧
    (((runSubOps 0 [.add false, .add false, .remove false, .remove false]).filter
        (fun s => s.engineUnsub)).length =
      ((runSubOps 0 [.add false, .add false, .remove false, .remove false]).filter
        (fun s => decide (0 < s.before) && decide (s.after = 0))).length) ∧
    (∀ s ∈ runSubOps 0 [.add false, .add false, .remove false, .remove false],
      (s.op = .add true ∨ s.op = .remove true) →
      s.engineSub = false ∧ s.engineUnsub = false ∧ s.after = s.before) :=
  subscription_engine_parity 0 [.add false, .add false, .remove false, .remove false]

end Centrifugo
